import Mathlib

/-!
Verification development for a small YouTube transcript/metadata HTTP service.

The repository has two Flask services:
* Service B (`app.py`): three GET endpoints over `youtube_transcript_api`
  and `yt_dlp` — `/api/transcript`, `/api/video-info`, `/api/video-data` —
  plus a pure URL-to-identifier extractor `extract_video_id`.
* Service A (`api/index.py`): one POST endpoint `/transcript` delegating to
  an Apify actor.

The external providers (captions library, metadata extractor, job runner)
are modelled as abstract function-valued parameters; each handler is a pure
Lean function of the request and the provider behaviours, returning the
HTTP response together with the list of provider calls it made.
Python floats for caption timestamps are idealised as rationals; all
concrete inputs used below are exact hundredths, where the two-decimal
formatting agrees with Python's.
-/

namespace KH

/-- One timed caption unit, as produced by the captions provider
(`start` and `duration` in seconds, idealised as rationals). -/
structure TranscriptSegment where
  start : ℚ
  duration : ℚ
  text : String
deriving DecidableEq

/-- Scalar JSON value (used for the fields of nested metadata dicts). -/
inductive SVal where
  | snull : SVal
  | sstr : String → SVal
  | snum : Int → SVal
deriving DecidableEq

/-- Top-level JSON value appearing in a response body.  Nested objects are
specialised to the shapes this service actually produces: a metadata dict
with scalar fields (`jdict`), a raw segment list (`jsegs`), and the opaque
item list relayed by Service A (`jitems`). -/
inductive JVal where
  | jnull : JVal
  | jbool : Bool → JVal
  | jstr : String → JVal
  | jnum : Int → JVal
  | jdict : List (String × SVal) → JVal
  | jsegs : List TranscriptSegment → JVal
  | jitems : List String → JVal
deriving DecidableEq

/-- An HTTP response: status code plus JSON object body
(ordered key/value pairs, as a Python dict). -/
structure HttpResp where
  status : Nat
  body : List (String × JVal)
deriving DecidableEq

/-- Python dict truthiness for the values that can appear in `result`
(`not result[...]` tests).  Only `jnull` and non-empty `jdict` values are
reachable where the handlers use it. -/
def jtruthy : JVal → Bool
  | JVal.jnull => false
  | JVal.jbool b => b
  | JVal.jstr s => !(s == "")
  | JVal.jnum n => !(n == 0)
  | JVal.jdict d => !d.isEmpty
  | JVal.jsegs l => !l.isEmpty
  | JVal.jitems l => !l.isEmpty

/-- Python dict update `d[k] = v`: overwrite in place if the key exists,
else append (insertion order preserved). -/
def dset (d : List (String × JVal)) (k : String) (v : JVal) :
    List (String × JVal) :=
  if d.any (fun p => p.1 == k) then
    d.map (fun p => if p.1 == k then (k, v) else p)
  else d ++ [(k, v)]

/-- Python `k in d` on a dict: key membership. -/
def dhas (d : List (String × JVal)) (k : String) : Bool :=
  d.any (fun p => p.1 == k)

/-- Python `d[k]` / key lookup (first binding; keys are unique here). -/
def dget (d : List (String × JVal)) (k : String) : Option JVal :=
  (d.find? (fun p => p.1 == k)).map (fun p => p.2)

/-- Python `sep.join(xs)`. -/
def joinSep (sep : String) : List String → String
  | [] => ""
  | x :: rest => rest.foldl (fun acc y => acc ++ sep ++ y) x

/-- The characters Python's `str.strip()` removes: exactly the 29 code
points for which CPython's `str.isspace` holds (Unicode whitespace plus
the bidirectional separator controls U+1C–U+1F and U+85). -/
def isPySpace (c : Char) : Bool :=
  c == '\x09' ||
  c == '\x0a' ||
  c == '\x0b' ||
  c == '\x0c' ||
  c == '\x0d' ||
  c == '\x1c' ||
  c == '\x1d' ||
  c == '\x1e' ||
  c == '\x1f' ||
  c == ' ' ||
  c == '\x85' ||
  c == '\xa0' ||
  c == '\u1680' ||
  ('\u2000' ≤ c && c ≤ '\u200a') ||
  c == '\u2028' ||
  c == '\u2029' ||
  c == '\u202f' ||
  c == '\u205f' ||
  c == '\u3000'

/-- `not full_text or full_text.strip() == ''`: the string is empty or
all-whitespace. -/
def pyStripEmpty (s : String) : Bool :=
  s.toList.all isPySpace

/-- Python `f"{x:.2f}"` for a rational: fixed two-decimal rendering.
`n` is the number of hundredths, `⌊100q + 1/2⌋` computed directly on the
numerator and denominator (exact on the nonnegative whole hundredths all
tested values are). -/
def format2 (q : ℚ) : String :=
  let n : Int := (200 * q.num + (q.den : Int)) / (2 * (q.den : Int))
  let ip : Int := n / 100
  let fr : Int := n % 100
  let frs : String := if fr < 10 then "0" ++ toString fr else toString fr
  toString ip ++ "." ++ frs

/-! ## `extract_video_id` (app.py lines 28–35)

The Python code anchors the regex

`(https?://)?(www\.)?(youtube|youtu|youtube-nocookie)\.(com|be)/(watch\?v=|embed/|v/|.+\?v=)?([^&=%\?]{11})`

at the start of the string with `re.match` and returns group 6.  The
embedding enumerates the backtracking engine's candidate remainders in
the engine's depth-first priority order (each optional/alternation group
in written order, greedy `.+` longest-first) and takes the first
candidate whose tail yields the 11-character group 6. -/

/-- Consume the literal `p` from the front of `s`, character by character. -/
def dropLit : List Char → List Char → Option (List Char)
  | [], s => some s
  | _ :: _, [] => none
  | p :: ps, c :: cs => if p = c then dropLit ps cs else none

/-- Alternatives of `(https?://)?`, in the engine's preference order. -/
def schemeOpts : List (List Char) :=
  ["https://".toList, "http://".toList, []]

/-- Alternatives of `(www\.)?`, in preference order. -/
def wwwOpts : List (List Char) :=
  ["www.".toList, []]

/-- Alternatives of `(youtube|youtu|youtube-nocookie)`, in written order. -/
def domainOpts : List (List Char) :=
  ["youtube".toList, "youtu".toList, "youtube-nocookie".toList]

/-- Alternatives of `\.(com|be)/`, in written order. -/
def tldOpts : List (List Char) :=
  [".com/".toList, ".be/".toList]

/-- Candidate remainders after one option list of literals. -/
def litStage (opts : List (List Char)) (s : List Char) : List (List Char) :=
  opts.filterMap (fun p => dropLit p s)

/-- Candidate remainders of the greedy `.+\?v=` alternative: split points
longest-first, `.` matching any character but a newline, then the literal
`?v=`. -/
def dotPlusCands (s : List Char) : List (List Char) :=
  ((List.range s.length).map (fun k => s.length - k)).filterMap
    (fun i =>
      if 1 ≤ i ∧ (s.take i).all (fun c => !(c == '\n')) then
        dropLit "?v=".toList (s.drop i)
      else none)

/-- Candidate remainders of `(watch\?v=|embed/|v/|.+\?v=)?`, in the
engine's preference order (the empty match of the optional group last). -/
def pathCands (s : List Char) : List (List Char) :=
  (dropLit "watch?v=".toList s).toList ++
  (dropLit "embed/".toList s).toList ++
  (dropLit "v/".toList s).toList ++
  dotPlusCands s ++ [s]

/-- Characters excluded by the final group `[^&=%\?]{11}`. -/
def excludedChar (c : Char) : Bool :=
  c == '&' || c == '=' || c == '%' || c == '?'

/-- Group 6: exactly 11 characters, none of them `&`, `=`, `%`, `?`. -/
def group6 (s : List Char) : Option (List Char) :=
  let v := s.take 11
  if v.length = 11 ∧ v.all (fun c => !excludedChar c) then some v else none

/-- All composite candidate remainders before group 6, in depth-first
priority order of the backtracking engine. -/
def regexCands (s : List Char) : List (List Char) :=
  (litStage schemeOpts s).flatMap (fun s1 =>
    (litStage wwwOpts s1).flatMap (fun s2 =>
      (litStage domainOpts s2).flatMap (fun s3 =>
        (litStage tldOpts s3).flatMap (fun s4 =>
          pathCands s4))))

/-- `extract_video_id` (app.py lines 28–35): anchored match, group 6. -/
def extract_video_id (url : String) : Option String :=
  ((regexCands url.toList).findSome? group6).map (fun cs => String.mk cs)

/-! ## Provider models

The external libraries are opaque to this repository; each call the
handlers make is modelled as an abstract function that either returns a
value or raises one of the exception kinds the handlers catch. -/

/-- Exceptions a captions-provider call may raise: the three named
exception classes imported in app.py line 2, or any other exception with
its `str(e)` message. -/
inductive CapErr where
  | transcriptsDisabled : CapErr
  | noTranscriptFound : CapErr
  | videoUnavailable : CapErr
  | otherExc : String → CapErr
deriving DecidableEq

instance exceptDecEq {ε α : Type} [DecidableEq ε] [DecidableEq α] :
    DecidableEq (Except ε α)
  | Except.ok a, Except.ok b =>
    if h : a = b then isTrue (by rw [h])
    else isFalse (by intro hh; cases hh; exact h rfl)
  | Except.ok _, Except.error _ => isFalse (by intro hh; cases hh)
  | Except.error _, Except.ok _ => isFalse (by intro hh; cases hh)
  | Except.error e, Except.error e2 =>
    if h : e = e2 then isTrue (by rw [h])
    else isFalse (by intro hh; cases hh; exact h rfl)

/-- A transcript object returned by `find_transcript`; its `fetch()` call
may itself raise. -/
structure FetchableTranscript where
  fetch : Except CapErr (List TranscriptSegment)
deriving DecidableEq

/-- A transcript list returned by `list_transcripts`; `find_transcript`
takes a language-preference list. -/
structure TranscriptList where
  find_transcript : List String → Except CapErr FetchableTranscript

/-- The captions provider used by `/api/transcript`
(`YouTubeTranscriptApi.list_transcripts`). -/
structure CapsProvider where
  list_transcripts : String → Except CapErr TranscriptList

/-- The metadata dict returned by `yt_dlp`'s `extract_info`; every field
may be absent (`info.get` then yields the supplied default or `None`). -/
structure MetaInfo where
  vid : Option String := none
  title : Option String := none
  thumbnail : Option String := none
  duration : Option Int := none
  view_count : Option Int := none
  upload_date : Option String := none
  channel : Option String := none
  like_count : Option Int := none
  descr : Option String := none
deriving DecidableEq

/-- `download_info` (app.py lines 22–26) is a thin wrapper around the
extractor; its behaviour is a parameter: either an info dict or an
exception message. -/
def MetaProvider : Type := String → Except String MetaInfo

/-- `YouTubeTranscriptApi.get_transcript(video_id, languages=...)` used by
`/api/video-data`: returns raw segments or raises. -/
def GetTranscriptFn : Type := String → List String → Except CapErr (List TranscriptSegment)

/-- The Apify actor call plus dataset iteration of Service A, collapsed
to one fallible call returning `(defaultDatasetId, items)`; dataset items
are opaque payloads. -/
def ActorFn : Type := SVal → Except String (String × List String)

/-- Tags for outbound provider calls, so each handler's run records the
network calls it attempted. -/
inductive PCall where
  | listTranscriptsCall : String → PCall
  | findTranscriptCall : List String → PCall
  | fetchCall : PCall
  | downloadInfoCall : String → PCall
  | getTranscriptCall : String → List String → PCall
  | actorCall : PCall
deriving DecidableEq

/-! ## `/api/transcript` (app.py lines 37–131) -/

/-- `ALL_LANGUAGES` (app.py lines 12–20). -/
def ALL_LANGUAGES : List String :=
  ["af", "sq", "am", "ar", "hy", "az", "eu", "be", "bn", "bs", "bg", "my", "ca", "ceb", "zh", "zh-Hans", "zh-Hant",
   "co", "hr", "cs", "da", "nl", "en", "eo", "et", "fi", "fr", "fy", "gl", "ka", "de", "el", "gu", "ht", "ha",
   "haw", "he", "hi", "hmn", "hu", "is", "ig", "id", "ga", "it", "ja", "jw", "kn", "kk", "km", "rw", "ko", "ku",
   "ky", "lo", "la", "lv", "lt", "lb", "mk", "mg", "ms", "ml", "mt", "mi", "mr", "mn", "ne", "no", "ny", "or",
   "ps", "fa", "pl", "pt", "pa", "ro", "ru", "sm", "gd", "sr", "st", "sn", "sd", "si", "sk", "sl", "so", "es",
   "su", "sw", "sv", "tl", "tg", "ta", "tt", "te", "th", "tr", "tk", "uk", "ur", "ug", "uz", "vi", "cy", "xh",
   "yi", "yo", "zu"]

/-- The inner captions stage of `/api/transcript` (app.py lines 57–67):
`list_transcripts`, then `find_transcript(['en'])` with a bare `except`
falling back to `find_transcript([])`, then `fetch()`.  Returns the
fetched segments or the first uncaught exception, together with the
provider calls made. -/
def capStageRun (caps : CapsProvider) (video_id : String) :
    Except CapErr (List TranscriptSegment) × List PCall :=
  match caps.list_transcripts video_id with
  | Except.error e => (Except.error e, [PCall.listTranscriptsCall video_id])
  | Except.ok tl =>
    match tl.find_transcript ["en"] with
    | Except.ok t =>
      (t.fetch,
       [PCall.listTranscriptsCall video_id, PCall.findTranscriptCall ["en"], PCall.fetchCall])
    | Except.error _ =>
      match tl.find_transcript [] with
      | Except.error e =>
        (Except.error e,
         [PCall.listTranscriptsCall video_id, PCall.findTranscriptCall ["en"],
          PCall.findTranscriptCall []])
      | Except.ok t =>
        (t.fetch,
         [PCall.listTranscriptsCall video_id, PCall.findTranscriptCall ["en"],
          PCall.findTranscriptCall [], PCall.fetchCall])

/-- `full_text = " ".join([part['text'] for part in transcript_parts])`
(app.py line 68). -/
def fullTextOf (parts : List TranscriptSegment) : String :=
  joinSep " " (parts.map (fun part => part.text))

/-- The `video_details` dict built on extractor success
(app.py lines 93–101): `info.get` with explicit defaults, numeric fields
passed through `str`. -/
def videoDetailsOf (info : MetaInfo) : List (String × SVal) :=
  [("title", SVal.sstr (info.title.getD "Unknown Title")),
   ("thumbnail", SVal.sstr (info.thumbnail.getD "")),
   ("duration", SVal.sstr (toString (info.duration.getD 0))),
   ("views", SVal.sstr (toString (info.view_count.getD 0))),
   ("upload_date", SVal.sstr (info.upload_date.getD "")),
   ("channel", SVal.sstr (info.channel.getD "")),
   ("likes", SVal.sstr (toString (info.like_count.getD 0)))]

/-- The fallback `video_details` dict built when the extractor raises
(app.py lines 104–112). -/
def fallbackDetails (video_id : String) : List (String × SVal) :=
  [("title", SVal.sstr ("Video " ++ video_id)),
   ("thumbnail", SVal.sstr ("https://i.ytimg.com/vi/" ++ video_id ++ "/hqdefault.jpg")),
   ("duration", SVal.sstr "Unknown"),
   ("views", SVal.sstr "Unknown"),
   ("upload_date", SVal.sstr "Unknown"),
   ("channel", SVal.sstr "Unknown"),
   ("likes", SVal.sstr "Unknown")]

/-- The metadata try/except of `/api/transcript` (app.py lines 91–112):
details from the extractor, or the fallback record on any exception. -/
def metaDetails (download_info : MetaProvider) (url video_id : String) :
    List (String × SVal) :=
  match download_info url with
  | Except.ok info => videoDetailsOf info
  | Except.error _ => fallbackDetails video_id

/-- `/api/transcript` handler (app.py lines 37–131), as a function of the
`url` query parameter (`none` = absent; the code's `if not url` also
treats the empty string as missing) and the two providers.  Returns the
HTTP response and the provider calls made. -/
def get_transcript_model (urlParam : Option String) (caps : CapsProvider)
    (download_info : MetaProvider) : HttpResp × List PCall :=
  match urlParam with
  | none =>
    (⟨400, [("success", JVal.jbool false), ("error", JVal.jstr "Missing URL parameter")]⟩, [])
  | some url =>
    if url = "" then
      (⟨400, [("success", JVal.jbool false), ("error", JVal.jstr "Missing URL parameter")]⟩, [])
    else
      match extract_video_id url with
      | none =>
        (⟨400, [("success", JVal.jbool false),
                ("error", JVal.jstr "Invalid YouTube URL or couldn\x27t extract video ID")]⟩, [])
      | some video_id =>
        match capStageRun caps video_id with
        | (Except.error CapErr.transcriptsDisabled, calls) =>
          (⟨404, [("success", JVal.jbool false),
                  ("error", JVal.jstr "Transcripts are disabled for this video")]⟩, calls)
        | (Except.error CapErr.noTranscriptFound, calls) =>
          (⟨404, [("success", JVal.jbool false),
                  ("error", JVal.jstr "No transcript found for this video")]⟩, calls)
        | (Except.error CapErr.videoUnavailable, calls) =>
          (⟨404, [("success", JVal.jbool false),
                  ("error", JVal.jstr "The video is unavailable")]⟩, calls)
        | (Except.error (CapErr.otherExc m), calls) =>
          (⟨500, [("success", JVal.jbool false),
                  ("error", JVal.jstr ("Error fetching transcript: " ++ m))]⟩, calls)
        | (Except.ok parts, calls) =>
          let full_text := fullTextOf parts
          let video_details := metaDetails download_info url video_id
          let calls2 := calls ++ [PCall.downloadInfoCall url]
          if pyStripEmpty full_text then
            (⟨404, [("success", JVal.jbool false),
                    ("error", JVal.jstr "Transcript is empty"),
                    ("video", JVal.jdict video_details)]⟩, calls2)
          else
            (⟨200, [("success", JVal.jbool true),
                    ("video", JVal.jdict video_details),
                    ("transcript", JVal.jstr full_text)]⟩, calls2)

/-! ## `/api/video-info` (app.py lines 133–161) -/

/-- Encode an optional string field (`info.get(k)`) as JSON. -/
def optStr : Option String → JVal
  | none => JVal.jnull
  | some s => JVal.jstr s

/-- Encode an optional numeric field (`info.get(k)`) as JSON. -/
def optNum : Option Int → JVal
  | none => JVal.jnull
  | some n => JVal.jnum n

/-- `/api/video-info` handler (app.py lines 133–161): no identifier
extraction, the raw URL goes straight to the extractor. -/
def get_video_info_model (urlParam : Option String)
    (download_info : MetaProvider) : HttpResp × List PCall :=
  match urlParam with
  | none =>
    (⟨400, [("success", JVal.jbool false), ("error", JVal.jstr "Missing URL parameter")]⟩, [])
  | some url =>
    if url = "" then
      (⟨400, [("success", JVal.jbool false), ("error", JVal.jstr "Missing URL parameter")]⟩, [])
    else
      match download_info url with
      | Except.ok info =>
        (⟨200, [("success", JVal.jbool true),
                ("video_id", optStr info.vid),
                ("title", optStr info.title),
                ("thumbnail", optStr info.thumbnail),
                ("duration", optNum info.duration),
                ("channel", optStr info.channel),
                ("upload_date", optStr info.upload_date)]⟩,
         [PCall.downloadInfoCall url])
      | Except.error e =>
        (⟨500, [("success", JVal.jbool false), ("error", JVal.jstr e)]⟩,
         [PCall.downloadInfoCall url])

/-! ## `/api/video-data` (app.py lines 163–235) -/

/-- One line of the combined endpoint's plain-text transcript:
`f"{item['start']:.2f} - {(item['start'] + item['duration']):.2f}: {item['text']}"`
(app.py lines 217–218). -/
def plainLineOf (item : TranscriptSegment) : String :=
  format2 item.start ++ " - " ++ format2 (item.start + item.duration) ++ ": " ++ item.text

/-- `plain_text = "\n".join(...)` (app.py lines 217–218). -/
def plainTextOf (transcript_data : List TranscriptSegment) : String :=
  joinSep "\n" (transcript_data.map plainLineOf)

/-- The `video_info` dict built on extractor success in `/api/video-data`
(app.py lines 192–201): plain `info.get`, no defaults. -/
def vInfoOf (info : MetaInfo) : List (String × SVal) :=
  [("title", match info.title with | none => SVal.snull | some s => SVal.sstr s),
   ("thumbnail", match info.thumbnail with | none => SVal.snull | some s => SVal.sstr s),
   ("duration", match info.duration with | none => SVal.snull | some n => SVal.snum n),
   ("views", match info.view_count with | none => SVal.snull | some n => SVal.snum n),
   ("upload_date", match info.upload_date with | none => SVal.snull | some s => SVal.sstr s),
   ("channel", match info.channel with | none => SVal.snull | some s => SVal.sstr s),
   ("likes", match info.like_count with | none => SVal.snull | some n => SVal.snum n),
   ("description", match info.descr with | none => SVal.snull | some s => SVal.sstr s)]

/-- The minimal `video_info` dict built when the extractor raises in
`/api/video-data` (app.py lines 206–209): only two keys. -/
def fallbackVInfo (video_id : String) : List (String × SVal) :=
  [("title", SVal.sstr ("Video " ++ video_id)),
   ("thumbnail", SVal.sstr ("https://i.ytimg.com/vi/" ++ video_id ++ "/hqdefault.jpg"))]

/-- `/api/video-data` handler (app.py lines 163–235).  The `result` dict
is threaded exactly as in the source: initialised with five keys
(`transcript_error` present from the start, bound to `None`), each
sub-operation updating it in place, and the final "both failed" test
reading `(not result['video_info'] or 'video_info_error' in result) and
'transcript_error' in result` (line 231). -/
def get_video_data_model (urlParam : Option String)
    (download_info : MetaProvider) (get_transcript_api : GetTranscriptFn) :
    HttpResp × List PCall :=
  match urlParam with
  | none =>
    (⟨400, [("success", JVal.jbool false), ("error", JVal.jstr "Missing URL parameter")]⟩, [])
  | some url =>
    if url = "" then
      (⟨400, [("success", JVal.jbool false), ("error", JVal.jstr "Missing URL parameter")]⟩, [])
    else
      match extract_video_id url with
      | none =>
        (⟨400, [("success", JVal.jbool false),
                ("error", JVal.jstr "Invalid YouTube URL or couldn\x27t extract video ID")]⟩, [])
      | some video_id =>
        let r0 : List (String × JVal) :=
          [("success", JVal.jbool true),
           ("video_id", JVal.jstr video_id),
           ("video_info", JVal.jnull),
           ("transcript", JVal.jnull),
           ("transcript_error", JVal.jnull)]
        let r1 :=
          match download_info url with
          | Except.ok info => dset r0 "video_info" (JVal.jdict (vInfoOf info))
          | Except.error e =>
            dset (dset (dset r0 "success" (JVal.jbool false))
                    "video_info_error" (JVal.jstr ("Error fetching video info: " ++ e)))
              "video_info" (JVal.jdict (fallbackVInfo video_id))
        let r2 :=
          match get_transcript_api video_id ALL_LANGUAGES with
          | Except.ok transcript_data =>
            dset (dset r1 "transcript" (JVal.jsegs transcript_data))
              "transcript_text" (JVal.jstr (plainTextOf transcript_data))
          | Except.error CapErr.transcriptsDisabled =>
            dset r1 "transcript_error" (JVal.jstr "Transcripts are disabled for this video")
          | Except.error CapErr.noTranscriptFound =>
            dset r1 "transcript_error"
              (JVal.jstr "No transcript found for this video in any supported language")
          | Except.error CapErr.videoUnavailable =>
            dset r1 "transcript_error" (JVal.jstr "The video is unavailable")
          | Except.error (CapErr.otherExc m) =>
            dset r1 "transcript_error" (JVal.jstr ("Error fetching transcript: " ++ m))
        let r3 :=
          if ((!jtruthy ((dget r2 "video_info").getD JVal.jnull)) || dhas r2 "video_info_error")
              && dhas r2 "transcript_error" then
            dset (dset r2 "success" (JVal.jbool false))
              "error" (JVal.jstr "Failed to retrieve both video information and transcript")
          else r2
        (⟨200, r3⟩,
         [PCall.downloadInfoCall url, PCall.getTranscriptCall video_id ALL_LANGUAGES])

/-! ## Service A: `/transcript` (api/index.py lines 12–30) -/

/-- Service A handler (api/index.py lines 12–30), as a function of the
parsed JSON body (`none` = no JSON body) and the actor-call behaviour.
The whole provider interaction (actor call, dataset id read, item
iteration) sits in one `try` and is collapsed into `actor`. -/
def index_transcript_model (jsonBody : Option (List (String × SVal)))
    (actor : ActorFn) : HttpResp × List PCall :=
  match jsonBody with
  | none =>
    (⟨400, [("error", JVal.jstr "Missing YouTube video URL")]⟩, [])
  | some data =>
    if data.isEmpty || !(data.any (fun p => p.1 == "url")) then
      (⟨400, [("error", JVal.jstr "Missing YouTube video URL")]⟩, [])
    else
      let video_url := ((data.find? (fun p => p.1 == "url")).map (fun p => p.2)).getD SVal.snull
      match actor video_url with
      | Except.ok (dataset_id, results) =>
        (⟨200, [("dataset_id", JVal.jstr dataset_id),
                ("transcript", JVal.jitems results)]⟩, [PCall.actorCall])
      | Except.error e =>
        (⟨500, [("error", JVal.jstr e)]⟩, [PCall.actorCall])

/-! ## Auxiliary definitions used by the theorems -/

/-- Key lookup in a scalar-valued metadata dict. -/
def sget (d : List (String × SVal)) (k : String) : Option SVal :=
  (d.find? (fun p => p.1 == k)).map (fun p => p.2)

/-- The `transcript_error` message `/api/video-data` stores for each
captions exception (app.py lines 221–228), collected for stating the
error-mapping theorems. -/
def vdErrMsg : CapErr → String
  | CapErr.transcriptsDisabled => "Transcripts are disabled for this video"
  | CapErr.noTranscriptFound => "No transcript found for this video in any supported language"
  | CapErr.videoUnavailable => "The video is unavailable"
  | CapErr.otherExc m => "Error fetching transcript: " ++ m

/-! Concrete provider behaviours used to instantiate the theorems. -/

/-- A metadata extractor that always raises. -/
def metaRaising : MetaProvider := fun _ => Except.error "boom"

/-- A metadata extractor that always succeeds with a fixed dict. -/
def metaFixed : MetaProvider := fun _ => Except.ok { title := some "T" }

/-- A captions provider whose every call raises a generic exception. -/
def capsRaising : CapsProvider :=
  ⟨fun _ => Except.error (CapErr.otherExc "net down")⟩

/-- A captions provider that raises `TranscriptsDisabled` on
`list_transcripts`. -/
def capsDisabled : CapsProvider :=
  ⟨fun _ => Except.error CapErr.transcriptsDisabled⟩

/-- A fetchable transcript holding fixed segments. -/
def fixedTranscript (parts : List TranscriptSegment) : FetchableTranscript :=
  ⟨Except.ok parts⟩

/-- A small concrete transcript with whole-second timestamps, used to
instantiate the provider-behaviour hypotheses. -/
def witnessSegs : List TranscriptSegment :=
  [⟨0, 1, "hello"⟩, ⟨1, 2, "world"⟩]

/-- A transcript list with no English transcript but with one available
transcript in some other language. -/
def tlNoEnglish : TranscriptList :=
  ⟨fun langs =>
    if langs = ["en"] then Except.error CapErr.noTranscriptFound
    else Except.ok (fixedTranscript witnessSegs)⟩

/-- A captions provider exposing `tlNoEnglish`. -/
def capsNoEnglish : CapsProvider := ⟨fun _ => Except.ok tlNoEnglish⟩

/-- A transcript list offering an English transcript directly. -/
def tlEnglish : TranscriptList :=
  ⟨fun _ => Except.ok (fixedTranscript witnessSegs)⟩

/-- A captions provider exposing `tlEnglish`. -/
def capsEnglish : CapsProvider := ⟨fun _ => Except.ok tlEnglish⟩

/-- A captions provider with no transcript in any language: both
`find_transcript` calls raise `NoTranscriptFound`. -/
def capsNone : CapsProvider :=
  ⟨fun _ => Except.ok ⟨fun _ => Except.error CapErr.noTranscriptFound⟩⟩

/-- A captions provider that succeeds with an empty segment list (so the
flattened text is empty). -/
def capsEmpty : CapsProvider :=
  ⟨fun _ => Except.ok ⟨fun _ => Except.ok (fixedTranscript [])⟩⟩

/-- A `get_transcript` behaviour (combined endpoint) that succeeds. -/
def getTOk : GetTranscriptFn := fun _ _ => Except.ok witnessSegs

/-- A `get_transcript` behaviour that raises a generic exception. -/
def getTRaising : GetTranscriptFn := fun _ _ => Except.error (CapErr.otherExc "net down")

/-- An actor call that succeeds with one dataset item. -/
def actorOk : ActorFn := fun _ => Except.ok ("ds1", ["item1"])

/-- A valid watch URL for the fixed known video. -/
def watchUrl : String := "https://www.youtube.com/watch?v=dQw4w9WgXcQ"

/-! ## Helper lemmas -/

theorem foldl_eq_intercalate_go (sep : String) :
    ∀ (l : List String) (acc : String),
      l.foldl (fun a y => a ++ sep ++ y) acc = String.intercalate.go acc sep l := by
  intro l
  induction l with
  | nil => intro acc; rfl
  | cons x xs ih =>
    intro acc
    show xs.foldl (fun a y => a ++ sep ++ y) (acc ++ sep ++ x) = _
    rw [ih]
    rfl

theorem joinSep_eq_intercalate (sep : String) (xs : List String) :
    joinSep sep xs = String.intercalate sep xs := by
  cases xs with
  | nil => rfl
  | cons x rest =>
    show rest.foldl (fun a y => a ++ sep ++ y) x = _
    rw [foldl_eq_intercalate_go]
    rfl

theorem findSome_eq_some {α β : Type} (f : α → Option β) :
    ∀ {l : List α} {b : β}, l.findSome? f = some b → ∃ a, a ∈ l ∧ f a = some b := by
  intro l
  induction l with
  | nil => intro b h; simp [List.findSome?] at h
  | cons x xs ih =>
    intro b h
    cases hfx : f x with
    | some y =>
      refine ⟨x, List.mem_cons_self x xs, ?_⟩
      rw [hfx]
      rw [List.findSome?_cons, hfx] at h
      exact h
    | none =>
      rw [List.findSome?_cons, hfx] at h
      obtain ⟨a, ha, hfa⟩ := ih h
      exact ⟨a, List.mem_cons_of_mem _ ha, hfa⟩

theorem dropLit_eq_append (p : List Char) :
    ∀ (s r : List Char), dropLit p s = some r → s = p ++ r := by
  induction p with
  | nil =>
    intro s r h
    rw [dropLit] at h
    cases h
    rfl
  | cons c cs ih =>
    intro s r h
    cases s with
    | nil => exact absurd h (by rw [dropLit]; simp)
    | cons x xs =>
      rw [dropLit] at h
      by_cases hcx : c = x
      · rw [if_pos hcx] at h
        have hxs := ih xs r h
        rw [List.cons_append, ← hcx, hxs]
      · rw [if_neg hcx] at h
        exact absurd h (by simp)

theorem mem_litStage {opts : List (List Char)} {s r : List Char}
    (h : r ∈ litStage opts s) : ∃ p, p ∈ opts ∧ dropLit p s = some r := by
  rw [litStage] at h
  exact List.mem_filterMap.mp h

/-! ## Claim theorems -/

/-- C4: for the fixed known 11-character identifier `dQw4w9WgXcQ`,
`extract_video_id` returns that same identifier on every accepted URL
shape built from it: with/without scheme, with/without `www.`, the
`youtu.be` short form, `/embed/`, `/v/`, a path containing `?v=`, and the
`youtube-nocookie.com` domain variant. -/
theorem extract_video_id_url_shapes :
    extract_video_id "https://www.youtube.com/watch?v=dQw4w9WgXcQ" = some "dQw4w9WgXcQ" ∧
    extract_video_id "http://www.youtube.com/watch?v=dQw4w9WgXcQ" = some "dQw4w9WgXcQ" ∧
    extract_video_id "www.youtube.com/watch?v=dQw4w9WgXcQ" = some "dQw4w9WgXcQ" ∧
    extract_video_id "youtube.com/watch?v=dQw4w9WgXcQ" = some "dQw4w9WgXcQ" ∧
    extract_video_id "https://youtu.be/dQw4w9WgXcQ" = some "dQw4w9WgXcQ" ∧
    extract_video_id "youtu.be/dQw4w9WgXcQ" = some "dQw4w9WgXcQ" ∧
    extract_video_id "https://www.youtube.com/embed/dQw4w9WgXcQ" = some "dQw4w9WgXcQ" ∧
    extract_video_id "https://www.youtube.com/v/dQw4w9WgXcQ" = some "dQw4w9WgXcQ" ∧
    extract_video_id "https://www.youtube.com/somepath?v=dQw4w9WgXcQ" = some "dQw4w9WgXcQ" ∧
    extract_video_id "https://www.youtube-nocookie.com/embed/dQw4w9WgXcQ" = some "dQw4w9WgXcQ" := by
  decide

/-- C3: `extract_video_id` is total (it is a Lean function, so it can
neither raise nor block) and for every input string returns either `none`
or an identifier of exactly 11 characters drawn from the video-identifier
character class `[^&=%?]`; and the match is anchored at the start: a
successful extraction forces the input to BEGIN with an accepted
scheme/`www.`/domain chain, so any input with other characters preceding
the recognized URL prefix yields `none`. -/
theorem extract_video_id_total_anchored (url : String) :
    (extract_video_id url = none ∨
      ∃ id, extract_video_id url = some id ∧ id.toList.length = 11 ∧
        ∀ c ∈ id.toList, excludedChar c = false) ∧
    (∀ id, extract_video_id url = some id →
      ∃ a, a ∈ schemeOpts ∧ ∃ b, b ∈ wwwOpts ∧ ∃ d, d ∈ domainOpts ∧ ∃ rest,
        url.toList = a ++ (b ++ (d ++ rest))) := by
  constructor
  · cases h : extract_video_id url with
    | none => exact Or.inl rfl
    | some id =>
      refine Or.inr ⟨id, rfl, ?_⟩
      rw [extract_video_id] at h
      obtain ⟨cs, hfind, hmk⟩ := Option.map_eq_some'.mp h
      obtain ⟨cand, _, hg⟩ := findSome_eq_some group6 hfind
      rw [group6] at hg
      split at hg
      · next hcond =>
        cases hg
        subst hmk
        refine ⟨hcond.1, ?_⟩
        intro c hcmem
        have := List.all_eq_true.mp hcond.2 c hcmem
        simpa using this
      · exact absurd hg (by simp)
  · intro id h
    rw [extract_video_id] at h
    obtain ⟨cs, hfind, _⟩ := Option.map_eq_some'.mp h
    obtain ⟨cand, hc, _⟩ := findSome_eq_some group6 hfind
    rw [regexCands] at hc
    rw [List.mem_flatMap] at hc
    obtain ⟨s1, hs1, hc2⟩ := hc
    rw [List.mem_flatMap] at hc2
    obtain ⟨s2, hs2, hc3⟩ := hc2
    rw [List.mem_flatMap] at hc3
    obtain ⟨s3, hs3, _⟩ := hc3
    obtain ⟨a, ha, hdropa⟩ := mem_litStage hs1
    obtain ⟨b, hb, hdropb⟩ := mem_litStage hs2
    obtain ⟨d, hd, hdropd⟩ := mem_litStage hs3
    refine ⟨a, ha, b, hb, d, hd, s3, ?_⟩
    rw [dropLit_eq_append a _ _ hdropa, dropLit_eq_append b _ _ hdropb,
      dropLit_eq_append d _ _ hdropd]

/-- Witness for C3 at the fixed watch URL: the anchoring conclusion holds
there with the extraction hypothesis discharged by computation. -/
theorem extract_video_id_total_anchored_witness :
    ∃ a, a ∈ schemeOpts ∧ ∃ b, b ∈ wwwOpts ∧ ∃ d, d ∈ domainOpts ∧ ∃ rest,
      ("https://www.youtube.com/watch?v=dQw4w9WgXcQ" : String).toList =
        a ++ (b ++ (d ++ rest)) :=
  (extract_video_id_total_anchored "https://www.youtube.com/watch?v=dQw4w9WgXcQ").2
    "dQw4w9WgXcQ" (by decide)

/-- C5: when no YouTube pattern is recognized in the URL (`extract_video_id`
yields `none`), both `/api/transcript` and `/api/video-data` respond with
HTTP 400 and `success:false`, and their recorded provider-call traces are
empty: no captions or metadata call is attempted. -/
theorem invalid_url_no_network (url : String) (caps : CapsProvider)
    (download_info : MetaProvider) (get_transcript_api : GetTranscriptFn)
    (hne : url ≠ "") (hx : extract_video_id url = none) :
    get_transcript_model (some url) caps download_info =
      (⟨400, [("success", JVal.jbool false),
              ("error", JVal.jstr "Invalid YouTube URL or couldn\x27t extract video ID")]⟩,
       []) ∧
    get_video_data_model (some url) download_info get_transcript_api =
      (⟨400, [("success", JVal.jbool false),
              ("error", JVal.jstr "Invalid YouTube URL or couldn\x27t extract video ID")]⟩,
       []) := by
  constructor
  · simp [get_transcript_model, hne, hx]
  · simp [get_video_data_model, hne, hx]

/-- Witness for C5: a concrete unrecognizable URL with concrete provider
behaviours, both hypotheses discharged by computation. -/
theorem invalid_url_no_network_witness :
    get_transcript_model (some "notyoutube") capsRaising metaRaising =
      (⟨400, [("success", JVal.jbool false),
              ("error", JVal.jstr "Invalid YouTube URL or couldn\x27t extract video ID")]⟩,
       []) ∧
    get_video_data_model (some "notyoutube") metaRaising getTOk =
      (⟨400, [("success", JVal.jbool false),
              ("error", JVal.jstr "Invalid YouTube URL or couldn\x27t extract video ID")]⟩,
       []) :=
  invalid_url_no_network "notyoutube" capsRaising metaRaising getTOk
    (by decide) (by decide)

/-- C6: in `/api/transcript` each captions failure maps to its own
outward signal — `TranscriptsDisabled` to 404 with a message containing
"disabled", `NoTranscriptFound` to 404 with its own message,
`VideoUnavailable` to 404 with its own message, and any other exception
to 500 with `Error fetching transcript:` plus the underlying message —
and the three 404 messages are pairwise distinct. -/
theorem transcript_failure_taxonomy (url video_id : String)
    (caps : CapsProvider) (download_info : MetaProvider)
    (hne : url ≠ "") (hx : extract_video_id url = some video_id) :
    ((capStageRun caps video_id).1 = Except.error CapErr.transcriptsDisabled →
      (get_transcript_model (some url) caps download_info).1 =
        ⟨404, [("success", JVal.jbool false),
               ("error", JVal.jstr "Transcripts are disabled for this video")]⟩) ∧
    ((capStageRun caps video_id).1 = Except.error CapErr.noTranscriptFound →
      (get_transcript_model (some url) caps download_info).1 =
        ⟨404, [("success", JVal.jbool false),
               ("error", JVal.jstr "No transcript found for this video")]⟩) ∧
    ((capStageRun caps video_id).1 = Except.error CapErr.videoUnavailable →
      (get_transcript_model (some url) caps download_info).1 =
        ⟨404, [("success", JVal.jbool false),
               ("error", JVal.jstr "The video is unavailable")]⟩) ∧
    (∀ m, (capStageRun caps video_id).1 = Except.error (CapErr.otherExc m) →
      (get_transcript_model (some url) caps download_info).1 =
        ⟨500, [("success", JVal.jbool false),
               ("error", JVal.jstr ("Error fetching transcript: " ++ m))]⟩) ∧
    (("Transcripts are disabled for this video" : String) ≠
        "No transcript found for this video" ∧
      ("Transcripts are disabled for this video" : String) ≠ "The video is unavailable" ∧
      ("No transcript found for this video" : String) ≠ "The video is unavailable") := by
  refine ⟨?_, ?_, ?_, ?_, by decide⟩
  · intro h
    rcases hc : capStageRun caps video_id with ⟨res, calls⟩
    rw [hc] at h
    simp only at h
    subst h
    simp [get_transcript_model, hne, hx, hc]
  · intro h
    rcases hc : capStageRun caps video_id with ⟨res, calls⟩
    rw [hc] at h
    simp only at h
    subst h
    simp [get_transcript_model, hne, hx, hc]
  · intro h
    rcases hc : capStageRun caps video_id with ⟨res, calls⟩
    rw [hc] at h
    simp only at h
    subst h
    simp [get_transcript_model, hne, hx, hc]
  · intro m h
    rcases hc : capStageRun caps video_id with ⟨res, calls⟩
    rw [hc] at h
    simp only at h
    subst h
    simp [get_transcript_model, hne, hx, hc]

/-- Witness for C6 at concrete inputs: a provider raising
`TranscriptsDisabled` makes `/api/transcript` answer 404 with the
"disabled" message. -/
theorem transcript_failure_taxonomy_witness :
    (get_transcript_model (some "https://youtu.be/dQw4w9WgXcQ") capsDisabled metaRaising).1 =
      ⟨404, [("success", JVal.jbool false),
             ("error", JVal.jstr "Transcripts are disabled for this video")]⟩ :=
  (transcript_failure_taxonomy "https://youtu.be/dQw4w9WgXcQ" "dQw4w9WgXcQ"
      capsDisabled metaRaising (by decide) (by decide)).1 (by decide)

/-- C7: the captions stage of `/api/transcript` first asks for the
preferred language `en` (the call trace begins with `list_transcripts`
then `find_transcript(['en'])`); when the English lookup succeeds its
transcript is fetched; when it raises (any exception) and the
bare-language fallback `find_transcript([])` returns a transcript, that
available transcript is fetched instead of failing; and when the fallback
itself raises, the stage propagates exactly the fallback's exception —
so the "no transcript" signal arises only from the provider reporting no
available transcript (or captions disallowed), never from the mere
absence of English. -/
theorem captions_language_fallback (caps : CapsProvider) (video_id : String)
    (tl : TranscriptList)
    (hlist : caps.list_transcripts video_id = Except.ok tl) :
    ((capStageRun caps video_id).2.take 2 =
      [PCall.listTranscriptsCall video_id, PCall.findTranscriptCall ["en"]]) ∧
    (∀ t, tl.find_transcript ["en"] = Except.ok t →
      (capStageRun caps video_id).1 = t.fetch) ∧
    (∀ e t, tl.find_transcript ["en"] = Except.error e →
      tl.find_transcript [] = Except.ok t →
      (capStageRun caps video_id).1 = t.fetch) ∧
    (∀ e e2, tl.find_transcript ["en"] = Except.error e →
      tl.find_transcript [] = Except.error e2 →
      (capStageRun caps video_id).1 = Except.error e2) := by
  refine ⟨?_, ?_, ?_, ?_⟩
  · cases hfe : tl.find_transcript ["en"] with
    | ok t => simp [capStageRun, hlist, hfe]
    | error e =>
      cases hf2 : tl.find_transcript [] with
      | ok t => simp [capStageRun, hlist, hfe, hf2]
      | error e2 => simp [capStageRun, hlist, hfe, hf2]
  · intro t hfe
    simp [capStageRun, hlist, hfe]
  · intro e t hfe hf2
    simp [capStageRun, hlist, hfe, hf2]
  · intro e e2 hfe hf2
    simp [capStageRun, hlist, hf2, hfe]

/-- Witness for C7: with no English transcript but another language
available, the captions stage returns that transcript's segments. -/
theorem captions_language_fallback_witness :
    (capStageRun capsNoEnglish "dQw4w9WgXcQ").1 = Except.ok witnessSegs :=
  (captions_language_fallback capsNoEnglish "dQw4w9WgXcQ" tlNoEnglish
      rfl).2.2.1 CapErr.noTranscriptFound (fixedTranscript witnessSegs)
    (by decide) (by decide)

/-- C8 counterexample: the claim quantifies over every request in which
the captions retrieval succeeds and the metadata extractor raises and
asserts HTTP 200 with `success:true`; but when the successfully fetched
transcript is empty, `/api/transcript` instead answers 404 with
`success:false` (the empty-transcript branch runs after the metadata
fallback). -/
theorem meta_fallback_claim_counterexample :
    (capStageRun capsEmpty "dQw4w9WgXcQ").1 = Except.ok [] ∧
    metaRaising "https://youtu.be/dQw4w9WgXcQ" = Except.error "boom" ∧
    (get_transcript_model (some "https://youtu.be/dQw4w9WgXcQ") capsEmpty metaRaising).1.status =
      404 ∧
    dget (get_transcript_model (some "https://youtu.be/dQw4w9WgXcQ") capsEmpty
        metaRaising).1.body "success" = some (JVal.jbool false) := by
  decide

/-- C8 (amended): for every request to the transcript-only endpoint in
which captions retrieval succeeds with a transcript whose flattened text
is not empty or whitespace-only (Python `strip()` semantics) and the
metadata extractor raises any exception, the handler still returns HTTP
200 with `success:true`, substituting a fallback metadata record whose
title is `Video {identifier}` and whose thumbnail equals
`https://i.ytimg.com/vi/{id}/hqdefault.jpg` (containing the synthesized
title and the deterministically constructed thumbnail), and this
fallback construction — a total function — never raises. -/
theorem meta_fallback_on_extractor_error (url video_id : String)
    (caps : CapsProvider) (download_info : MetaProvider)
    (parts : List TranscriptSegment) (m : String)
    (hne : url ≠ "") (hx : extract_video_id url = some video_id)
    (hcap : (capStageRun caps video_id).1 = Except.ok parts)
    (hmeta : download_info url = Except.error m)
    (hnem : pyStripEmpty (fullTextOf parts) = false) :
    (get_transcript_model (some url) caps download_info).1 =
      ⟨200, [("success", JVal.jbool true),
             ("video", JVal.jdict (fallbackDetails video_id)),
             ("transcript", JVal.jstr (fullTextOf parts))]⟩ ∧
    sget (fallbackDetails video_id) "title" = some (SVal.sstr ("Video " ++ video_id)) ∧
    sget (fallbackDetails video_id) "thumbnail" =
      some (SVal.sstr ("https://i.ytimg.com/vi/" ++ video_id ++ "/hqdefault.jpg")) := by
  refine ⟨?_, by simp [sget, fallbackDetails], by simp [sget, fallbackDetails]⟩
  rcases hc : capStageRun caps video_id with ⟨res, calls⟩
  rw [hc] at hcap
  simp only at hcap
  subst hcap
  simp [get_transcript_model, hne, hx, hc, metaDetails, hmeta, hnem]

/-- Witness for C8 (amended) at concrete inputs. -/
theorem meta_fallback_on_extractor_error_witness :
    (get_transcript_model (some "https://youtu.be/dQw4w9WgXcQ") capsEnglish metaRaising).1 =
      ⟨200, [("success", JVal.jbool true),
             ("video", JVal.jdict (fallbackDetails "dQw4w9WgXcQ")),
             ("transcript", JVal.jstr (fullTextOf witnessSegs))]⟩ ∧
    sget (fallbackDetails "dQw4w9WgXcQ") "title" = some (SVal.sstr "Video dQw4w9WgXcQ") ∧
    sget (fallbackDetails "dQw4w9WgXcQ") "thumbnail" =
      some (SVal.sstr "https://i.ytimg.com/vi/dQw4w9WgXcQ/hqdefault.jpg") :=
  meta_fallback_on_extractor_error "https://youtu.be/dQw4w9WgXcQ" "dQw4w9WgXcQ"
    capsEnglish metaRaising witnessSegs "boom"
    (by decide) (by decide) (by decide) (by decide) (by decide)

/-- C10: when captions retrieval succeeds but the flattened text is empty
or whitespace-only, `/api/transcript` returns HTTP 404 with
`success:false`, the error message `Transcript is empty`, and the video
metadata record (real or fallback, whatever the metadata stage produced)
still included under the `video` key. -/
theorem empty_transcript_404 (url video_id : String) (caps : CapsProvider)
    (download_info : MetaProvider) (parts : List TranscriptSegment)
    (hne : url ≠ "") (hx : extract_video_id url = some video_id)
    (hcap : (capStageRun caps video_id).1 = Except.ok parts)
    (hempty : pyStripEmpty (fullTextOf parts) = true) :
    (get_transcript_model (some url) caps download_info).1 =
      ⟨404, [("success", JVal.jbool false),
             ("error", JVal.jstr "Transcript is empty"),
             ("video", JVal.jdict (metaDetails download_info url video_id))]⟩ := by
  rcases hc : capStageRun caps video_id with ⟨res, calls⟩
  rw [hc] at hcap
  simp only at hcap
  subst hcap
  simp [get_transcript_model, hne, hx, hc, hempty]

/-- Witness for C10 at concrete inputs: a provider returning an empty
segment list, with metadata succeeding. -/
theorem empty_transcript_404_witness :
    (get_transcript_model (some "https://youtu.be/dQw4w9WgXcQ") capsEmpty metaFixed).1 =
      ⟨404, [("success", JVal.jbool false),
             ("error", JVal.jstr "Transcript is empty"),
             ("video", JVal.jdict (metaDetails metaFixed "https://youtu.be/dQw4w9WgXcQ"
               "dQw4w9WgXcQ"))]⟩ :=
  empty_transcript_404 "https://youtu.be/dQw4w9WgXcQ" "dQw4w9WgXcQ" capsEmpty metaFixed []
    (by decide) (by decide) (by decide) (by decide)

unseal Rat.add in
/-- C1 counterexample: with a metadata extractor that raises and a
captions fetch that succeeds, `/api/video-data` answers with
`success:false` and the top-level "both failed" error — the claim asserts
`success` stays true in this situation.  (Line 203 sets `success = False`
on any metadata failure, and line 231's `'transcript_error' in result`
test is always true because that key is initialised to `None`.) -/
theorem combined_success_rule_counterexample :
    metaRaising "https://youtu.be/dQw4w9WgXcQ" = Except.error "boom" ∧
    getTOk "dQw4w9WgXcQ" ALL_LANGUAGES = Except.ok witnessSegs ∧
    dget (get_video_data_model (some "https://youtu.be/dQw4w9WgXcQ")
        metaRaising getTOk).1.body "success" = some (JVal.jbool false) ∧
    dget (get_video_data_model (some "https://youtu.be/dQw4w9WgXcQ")
        metaRaising getTOk).1.body "error" =
      some (JVal.jstr "Failed to retrieve both video information and transcript") := by
  decide

/-- C1 (amended): `/api/video-data` attempts metadata and captions
independently and records each failure in its own error field without
aborting the other; but the response's `success` flag is false exactly
when the METADATA fetch failed (irrespective of the captions outcome),
and in that case the top-level "both failed" error is set — a
metadata-only failure with a successful captions fetch therefore yields
`success:false`, while a captions-only failure leaves `success:true`. -/
theorem combined_endpoint_success_rule (url video_id : String)
    (download_info : MetaProvider) (get_transcript_api : GetTranscriptFn)
    (hne : url ≠ "") (hx : extract_video_id url = some video_id) :
    (∀ info, download_info url = Except.ok info →
      dget (get_video_data_model (some url) download_info get_transcript_api).1.body
          "success" = some (JVal.jbool true) ∧
      dget (get_video_data_model (some url) download_info get_transcript_api).1.body
          "error" = none ∧
      dget (get_video_data_model (some url) download_info get_transcript_api).1.body
          "video_info" = some (JVal.jdict (vInfoOf info))) ∧
    (∀ e, download_info url = Except.error e →
      dget (get_video_data_model (some url) download_info get_transcript_api).1.body
          "success" = some (JVal.jbool false) ∧
      dget (get_video_data_model (some url) download_info get_transcript_api).1.body
          "error" =
        some (JVal.jstr "Failed to retrieve both video information and transcript") ∧
      dget (get_video_data_model (some url) download_info get_transcript_api).1.body
          "video_info_error" = some (JVal.jstr ("Error fetching video info: " ++ e)) ∧
      dget (get_video_data_model (some url) download_info get_transcript_api).1.body
          "video_info" = some (JVal.jdict (fallbackVInfo video_id))) ∧
    (∀ data, get_transcript_api video_id ALL_LANGUAGES = Except.ok data →
      dget (get_video_data_model (some url) download_info get_transcript_api).1.body
          "transcript" = some (JVal.jsegs data) ∧
      dget (get_video_data_model (some url) download_info get_transcript_api).1.body
          "transcript_text" = some (JVal.jstr (plainTextOf data))) ∧
    (∀ e, get_transcript_api video_id ALL_LANGUAGES = Except.error e →
      dget (get_video_data_model (some url) download_info get_transcript_api).1.body
          "transcript" = some JVal.jnull ∧
      dget (get_video_data_model (some url) download_info get_transcript_api).1.body
          "transcript_error" = some (JVal.jstr (vdErrMsg e))) := by
  refine ⟨?_, ?_, ?_, ?_⟩
  · intro info hinfo
    cases hgt : get_transcript_api video_id ALL_LANGUAGES with
    | ok d =>
      refine ⟨?_, ?_, ?_⟩ <;>
        simp [get_video_data_model, hne, hx, hinfo, hgt, dget, dset, dhas, jtruthy,
          List.find?, List.any]
    | error e =>
      cases e <;>
        refine ⟨?_, ?_, ?_⟩ <;>
          simp [get_video_data_model, hne, hx, hinfo, hgt, dget, dset, dhas, jtruthy,
            List.find?, List.any]
  · intro e he
    cases hgt : get_transcript_api video_id ALL_LANGUAGES with
    | ok d =>
      refine ⟨?_, ?_, ?_, ?_⟩ <;>
        simp [get_video_data_model, hne, hx, he, hgt, dget, dset, dhas, jtruthy,
          List.find?, List.any]
    | error e2 =>
      cases e2 <;>
        refine ⟨?_, ?_, ?_, ?_⟩ <;>
          simp [get_video_data_model, hne, hx, he, hgt, dget, dset, dhas, jtruthy,
            List.find?, List.any]
  · intro d hgt
    cases hm : download_info url with
    | ok info =>
      refine ⟨?_, ?_⟩ <;>
        simp [get_video_data_model, hne, hx, hm, hgt, dget, dset, dhas, jtruthy,
          List.find?, List.any]
    | error e =>
      refine ⟨?_, ?_⟩ <;>
        simp [get_video_data_model, hne, hx, hm, hgt, dget, dset, dhas, jtruthy,
          List.find?, List.any]
  · intro e hgt
    cases hm : download_info url with
    | ok info =>
      cases e <;>
        refine ⟨?_, ?_⟩ <;>
          simp [get_video_data_model, hne, hx, hm, hgt, dget, dset, dhas, jtruthy,
            vdErrMsg, List.find?, List.any]
    | error e2 =>
      cases e <;>
        refine ⟨?_, ?_⟩ <;>
          simp [get_video_data_model, hne, hx, hm, hgt, dget, dset, dhas, jtruthy,
            vdErrMsg, List.find?, List.any]

/-- Witness for C1 (amended) at concrete inputs: metadata raising,
captions succeeding. -/
theorem combined_endpoint_success_rule_witness :
    dget (get_video_data_model (some "https://youtu.be/dQw4w9WgXcQ")
        metaRaising getTOk).1.body "success" = some (JVal.jbool false) ∧
    dget (get_video_data_model (some "https://youtu.be/dQw4w9WgXcQ")
        metaRaising getTOk).1.body "error" =
      some (JVal.jstr "Failed to retrieve both video information and transcript") ∧
    dget (get_video_data_model (some "https://youtu.be/dQw4w9WgXcQ")
        metaRaising getTOk).1.body "video_info_error" =
      some (JVal.jstr "Error fetching video info: boom") ∧
    dget (get_video_data_model (some "https://youtu.be/dQw4w9WgXcQ")
        metaRaising getTOk).1.body "video_info" =
      some (JVal.jdict (fallbackVInfo "dQw4w9WgXcQ")) :=
  (combined_endpoint_success_rule "https://youtu.be/dQw4w9WgXcQ" "dQw4w9WgXcQ"
      metaRaising getTOk (by decide) (by decide)).2.1 "boom" (by decide)

/-- C2 counterexample: Service A's `/transcript` endpoint responds (on a
successful provider run) with a body `{dataset_id, transcript}` that
contains NO `success` flag, refuting the claim that every response of
the four endpoints carries an explicit success flag. -/
theorem envelope_claim_counterexample :
    dget (index_transcript_model (some [("url", SVal.sstr "https://x")]) actorOk).1.body
      "success" = none ∧
    (index_transcript_model (some [("url", SVal.sstr "https://x")]) actorOk).1.status =
      200 := by
  decide

/-- C2 (amended): for every request and every provider behaviour, the
three Service B endpoints return a JSON body with an explicit boolean
`success` flag (every path of the total handler functions ends in such an
envelope, so no provider exception reaches the HTTP layer); Service A
likewise maps every provider exception to a JSON envelope — a 500
`{error}` body — but its envelopes carry no success flag: its bodies are
always either `{error}` or `{dataset_id, transcript}`. -/
theorem handlers_always_enveloped (urlParam : Option String)
    (caps : CapsProvider) (download_info : MetaProvider)
    (get_transcript_api : GetTranscriptFn)
    (jsonBody : Option (List (String × SVal))) (actor : ActorFn) :
    (∃ b, dget (get_transcript_model urlParam caps download_info).1.body "success" =
      some (JVal.jbool b)) ∧
    (∃ b, dget (get_video_info_model urlParam download_info).1.body "success" =
      some (JVal.jbool b)) ∧
    (∃ b, dget (get_video_data_model urlParam download_info get_transcript_api).1.body
      "success" = some (JVal.jbool b)) ∧
    ((∃ m, (index_transcript_model jsonBody actor).1.body = [("error", JVal.jstr m)]) ∨
      (∃ ds items, (index_transcript_model jsonBody actor).1.body =
        [("dataset_id", JVal.jstr ds), ("transcript", JVal.jitems items)])) := by
  refine ⟨?_, ?_, ?_, ?_⟩
  · cases urlParam with
    | none => exact ⟨false, rfl⟩
    | some url =>
      by_cases hne : url = ""
      · exact ⟨false, by simp [get_transcript_model, hne, dget, List.find?]⟩
      · cases hx : extract_video_id url with
        | none => exact ⟨false, by simp [get_transcript_model, hne, hx, dget, List.find?]⟩
        | some vid =>
          rcases hc : capStageRun caps vid with ⟨res, calls⟩
          cases res with
          | error e =>
            cases e <;>
              exact ⟨false, by simp [get_transcript_model, hne, hx, hc, dget, List.find?]⟩
          | ok parts =>
            by_cases hemp : pyStripEmpty (fullTextOf parts)
            · exact ⟨false,
                by simp [get_transcript_model, hne, hx, hc, hemp, dget, List.find?]⟩
            · exact ⟨true,
                by simp [get_transcript_model, hne, hx, hc, hemp, dget, List.find?]⟩
  · cases urlParam with
    | none => exact ⟨false, rfl⟩
    | some url =>
      by_cases hne : url = ""
      · exact ⟨false, by simp [get_video_info_model, hne, dget, List.find?]⟩
      · cases hm : download_info url with
        | ok info =>
          exact ⟨true, by simp [get_video_info_model, hne, hm, dget, List.find?]⟩
        | error e =>
          exact ⟨false, by simp [get_video_info_model, hne, hm, dget, List.find?]⟩
  · cases urlParam with
    | none => exact ⟨false, rfl⟩
    | some url =>
      by_cases hne : url = ""
      · exact ⟨false, by simp [get_video_data_model, hne, dget, List.find?]⟩
      · cases hx : extract_video_id url with
        | none => exact ⟨false, by simp [get_video_data_model, hne, hx, dget, List.find?]⟩
        | some vid =>
          cases hm : download_info url with
          | ok info =>
            cases hgt : get_transcript_api vid ALL_LANGUAGES with
            | ok d =>
              exact ⟨true, by simp [get_video_data_model, hne, hx, hm, hgt, dget, dset,
                dhas, jtruthy, List.find?, List.any]⟩
            | error e =>
              cases e <;>
                exact ⟨true, by simp [get_video_data_model, hne, hx, hm, hgt, dget, dset,
                  dhas, jtruthy, List.find?, List.any]⟩
          | error e =>
            cases hgt : get_transcript_api vid ALL_LANGUAGES with
            | ok d =>
              exact ⟨false, by simp [get_video_data_model, hne, hx, hm, hgt, dget, dset,
                dhas, jtruthy, List.find?, List.any]⟩
            | error e2 =>
              cases e2 <;>
                exact ⟨false, by simp [get_video_data_model, hne, hx, hm, hgt, dget, dset,
                  dhas, jtruthy, List.find?, List.any]⟩
  · cases jsonBody with
    | none => exact Or.inl ⟨"Missing YouTube video URL", rfl⟩
    | some data =>
      by_cases hkey : data.isEmpty || !(data.any (fun p => p.1 == "url"))
      · exact Or.inl ⟨"Missing YouTube video URL",
          by simp [index_transcript_model, hkey]⟩
      · cases ha : actor (((data.find? (fun p => p.1 == "url")).map
            (fun p => p.2)).getD SVal.snull) with
        | ok p =>
          exact Or.inr ⟨p.1, p.2, by simp [index_transcript_model, hkey, ha]⟩
        | error e =>
          exact Or.inl ⟨e, by simp [index_transcript_model, hkey, ha]⟩

unseal Rat.add Rat.ofScientific in
/-- C9: the primary endpoint's flattened text joins segment texts with
single spaces; the combined endpoint's text form is one
`start - end: text` line per segment (end = start + duration, two decimal
places) joined by newlines; and on the 2-segment transcript
`[(0.0, 5.28, "a"), (5.28, 3.42, "b")]` the latter is exactly
`"0.00 - 5.28: a\n5.28 - 8.70: b"`. -/
theorem flatten_forms_ok :
    (∀ parts : List TranscriptSegment,
      fullTextOf parts = String.intercalate " " (parts.map (fun p => p.text))) ∧
    (∀ d : List TranscriptSegment,
      plainTextOf d = String.intercalate "\n"
        (d.map (fun item =>
          format2 item.start ++ " - " ++ format2 (item.start + item.duration) ++
            ": " ++ item.text))) ∧
    plainTextOf [⟨0, 5.28, "a"⟩, ⟨5.28, 3.42, "b"⟩] = "0.00 - 5.28: a\n5.28 - 8.70: b" := by
  refine ⟨fun parts => ?_, fun d => ?_, ?_⟩
  · rw [fullTextOf, joinSep_eq_intercalate]
  · rw [plainTextOf, joinSep_eq_intercalate]
    rfl
  · decide

end KH
